import Mathlib

/-!
Verification of the component-dispatch and configuration-resolution layer of
sosreport (`sos/__init__.py`): option precedence, parser-default suppression,
signal handling, component dispatch, and logging setup.

Option values as in the source: strings, booleans, integers, lists of strings,
or Python `None`.
-/

set_option autoImplicit false

/-- A Python option value: `str | bool | int | list[str] | None`. -/
inductive Value where
  | vstr (s : String)
  | vbool (b : Bool)
  | vint (n : Int)
  | vlist (l : List String)
  | vnone
deriving DecidableEq, Repr

/-- Whether a value is a list (Python `list`). -/
def Value.isList : Value → Bool
  | .vlist _ => true
  | _ => false

/-- Lookup in a Python-dict-like association list: value of the first pair
whose key matches. -/
def lookup : List (String × Value) → String → Option Value
  | [], _ => none
  | p :: l, k => if p.1 = k then some p.2 else lookup l k

/-- Python `dict.update`: keys of `d2` overwrite same-named keys of `d1` in
place, new keys are appended in order. -/
def dictUpdate (d1 d2 : List (String × Value)) : List (String × Value) :=
  (d1.map (fun p => match lookup d2 p.1 with
    | some v => (p.1, v)
    | none => p))
  ++ d2.filter (fun p => (lookup d1 p.1).isNone)

/-- `SoSComponent._arg_defaults`, the shared top-level default set
(src/sos/__init__.py lines 53-59). -/
def sharedArgDefaults : List (String × Value) :=
  [("config_file", .vstr "/etc/sos.conf"),
   ("quiet", .vbool false),
   ("tmp_dir", .vstr ""),
   ("sysroot", .vnone),
   ("verbosity", .vint 0)]

/- Helper lemmas on lookup / dictUpdate. -/

theorem lookup_append (l1 l2 : List (String × Value)) (k : String) :
    lookup (l1 ++ l2) k =
      match lookup l1 k with
      | some v => some v
      | none => lookup l2 k := by
  induction l1 with
  | nil => simp [lookup]
  | cons p l ih =>
    by_cases h : p.1 = k
    · simp [lookup, h]
    · simp [lookup, h, ih]

theorem lookup_map_update (d1 d2 : List (String × Value)) (k : String) :
    lookup (d1.map (fun p => match lookup d2 p.1 with
      | some v => (p.1, v)
      | none => p)) k =
      match lookup d1 k with
      | none => none
      | some v =>
        match lookup d2 k with
        | some w => some w
        | none => some v := by
  induction d1 with
  | nil => simp [lookup]
  | cons p l ih =>
    by_cases h : p.1 = k
    · subst h
      cases h2 : lookup d2 p.1 <;> simp [lookup, h2]
    · have hkey : (match lookup d2 p.1 with
          | some v => (p.1, v)
          | none => p).1 = p.1 := by
        cases lookup d2 p.1 <;> simp
      simp only [List.map_cons, lookup, hkey, if_neg h]
      exact ih

theorem lookup_filter_of_none (d : List (String × Value))
    (g : String × Value → Bool) (k : String) (h : lookup d k = none) :
    lookup (d.filter g) k = none := by
  induction d with
  | nil => simp [lookup]
  | cons p l ih =>
    by_cases hk : p.1 = k
    · simp [lookup, hk] at h
    · simp only [lookup, if_neg hk] at h
      simp only [List.filter_cons]
      cases hg : g p with
      | true => simp [lookup, hk, ih h]
      | false => simp [ih h]

theorem lookup_filter_shadow (d1 d2 : List (String × Value)) (k : String)
    (v : Value) (h1 : lookup d1 k = none) (h2 : lookup d2 k = some v) :
    lookup (d2.filter (fun p => (lookup d1 p.1).isNone)) k = some v := by
  induction d2 with
  | nil => simp [lookup] at h2
  | cons p l ih =>
    by_cases hk : p.1 = k
    · have hkeep : (lookup d1 p.1).isNone = true := by
        rw [hk, h1]; rfl
      simp only [lookup, if_pos hk] at h2
      rw [List.filter_cons, if_pos hkeep]
      simp [lookup, hk, h2]
    · simp only [lookup, if_neg hk] at h2
      simp only [List.filter_cons]
      cases hkeep : (lookup d1 p.1).isNone with
      | true => simp [lookup, hk, ih h2]
      | false => simp [ih h2]

theorem lookup_dictUpdate_of_mem (d1 d2 : List (String × Value)) (k : String)
    (v : Value) (h : lookup d2 k = some v) :
    lookup (dictUpdate d1 d2) k = some v := by
  unfold dictUpdate
  rw [lookup_append, lookup_map_update]
  cases h1 : lookup d1 k with
  | some w => simp [h]
  | none => simp [lookup_filter_shadow d1 d2 k v h1 h]

theorem lookup_dictUpdate_of_none (d1 d2 : List (String × Value)) (k : String)
    (h : lookup d2 k = none) :
    lookup (dictUpdate d1 d2) k = lookup d1 k := by
  unfold dictUpdate
  rw [lookup_append, lookup_map_update]
  cases h1 : lookup d1 k with
  | some w => simp [h]
  | none => simp [lookup_filter_of_none d2 _ k h]

/-!
Argument parsing model. The parser actions are argparse actions registered by
`SoS._add_common_options` / component `add_parser_options`; the `extend`
action is `SosListOption`.
-/

/-- The argparse action kinds used by the source: `store`, `store_true`,
`count`, and the registered `extend` action (`SosListOption`). -/
inductive ActionKind where
  | store
  | store_true
  | count
  | extend
deriving DecidableEq, Repr

/-- One argparse action: destination name, kind, and parser-level default. -/
structure ParserAction where
  dest : String
  kind : ActionKind
  default : Value
deriving DecidableEq, Repr

/-- The argparse suppression sentinel string. -/
def suppressSentinel : Value := .vstr "==SUPPRESS=="

/-- The loop of `SoSComponent.load_options` (src lines 105-107): every parser
action whose default is not the suppression sentinel has its default replaced
by `None`. -/
def suppress_defaults (actions : List ParserAction) : List ParserAction :=
  actions.map (fun a =>
    if a.default = suppressSentinel then a else { a with default := .vnone })

/-- How argparse resolves one action from the raw occurrence values the user
typed for its destination: `store` keeps the last occurrence, `store_true`
yields `True` when typed, `count` counts occurrences, and the `extend` action
accumulates every occurrence in order. Modelled from the spec for `extend`
(`SosListOption`, sos/options.py, is not under src): a repeatable flag
"accumulates across multiple command-line occurrences into an ordered
sequence rather than being overwritten by the last occurrence". An action the
user never typed resolves to its (possibly suppressed) default. -/
def parse_action (a : ParserAction) (occurrences : List String) : Value :=
  match occurrences with
  | [] => a.default
  | _ =>
    match a.kind with
    | .store =>
      match occurrences.getLast? with
      | some s => .vstr s
      | none => a.default
    | .store_true => .vbool true
    | .count => .vint occurrences.length
    | .extend => .vlist occurrences

/-- `parser.parse_args()`: the parsed namespace, as the mapping from each
action's destination to its resolved value. `occ d` is the ordered list of
raw values the user supplied for destination `d` (empty: not supplied). -/
def parse_args (actions : List ParserAction) (occ : String → List String) :
    List (String × Value) :=
  actions.map (fun a => (a.dest, parse_action a (occ a.dest)))

/-!
The options container. `SoSOptions` lives in sos/options.py, which is not
under src; its operations are modelled from the spec. Each option carries its
value and whether the command-line merge set it, so that the
configuration-file merge can target "options still unset after the
command-line merge".
-/

/-- One resolved option: name, current value, and whether the command-line
merge explicitly set it. -/
structure OptEntry where
  name : String
  value : Value
  setByCli : Bool
deriving DecidableEq, Repr

/-- Modelled from the spec: `SoSOptions(arg_defaults=...)` "seeds every
recognized option with its component-declared default". -/
def SoSOptions.init (defaults : List (String × Value)) : List OptEntry :=
  defaults.map (fun p => ⟨p.1, p.2, false⟩)

/-- Modelled from the spec: one step of `SoSOptions.merge` — "for every
option the user explicitly supplied on the command line, overwrite the seeded
value. Options left at their parser-level default are represented as absent
(not merged)": after suppression an untyped option parses to `None`, and a
`None` command-line value is not merged. -/
def mergeEntry (cmd : List (String × Value)) (e : OptEntry) : OptEntry :=
  match lookup cmd e.name with
  | some v => if v = .vnone then e else ⟨e.name, v, true⟩
  | none => e

/-- Modelled from the spec: `SoSOptions.merge` applied to the parsed
command-line namespace, entry by entry. -/
def SoSOptions.merge (entries : List OptEntry) (cmd : List (String × Value)) :
    List OptEntry :=
  entries.map (mergeEntry cmd)

/-- Modelled from the spec: one step of `SoSOptions.update_from_conf` —
configuration-file values are merged "only into options still unset after the
command-line merge", except that for a list-typed option the
configuration-file value "extends (appends to) the command-line-derived
sequence rather than replacing it". -/
def confEntry (conf : List (String × Value)) (e : OptEntry) : OptEntry :=
  match lookup conf e.name with
  | none => e
  | some cv =>
    match e.value, cv with
    | .vlist l, .vlist cl => ⟨e.name, .vlist (l ++ cl), e.setByCli⟩
    | _, _ => if e.setByCli then e else ⟨e.name, cv, e.setByCli⟩

/-- Modelled from the spec: `SoSOptions.update_from_conf`, given the
key/value mapping the external configuration-file parser produced. -/
def SoSOptions.update_from_conf (entries : List OptEntry)
    (conf : List (String × Value)) : List OptEntry :=
  entries.map (confEntry conf)

/-- Value of the resolved option named `k`. -/
def SoSOptions.resolve (entries : List OptEntry) (k : String) : Option Value :=
  match entries with
  | [] => none
  | e :: rest => if e.name = k then some e.value else SoSOptions.resolve rest k

/-- `SoSComponent.load_options` (src lines 98-116): seed `SoSOptions` with the
merged defaults, null out non-suppressed parser defaults, parse the command
line and merge it, then merge the configuration-file mapping. -/
def load_options (arg_defaults : List (String × Value))
    (actions : List ParserAction) (occ : String → List String)
    (conf : List (String × Value)) : List OptEntry :=
  SoSOptions.update_from_conf
    (SoSOptions.merge (SoSOptions.init arg_defaults)
      (parse_args (suppress_defaults actions) occ))
    conf

/- Entry-level facts about the two merge steps. -/

@[simp]
theorem mergeEntry_name (cmd : List (String × Value)) (e : OptEntry) :
    (mergeEntry cmd e).name = e.name := by
  unfold mergeEntry
  cases lookup cmd e.name with
  | none => rfl
  | some v =>
    by_cases h : v = Value.vnone <;> simp [h]

@[simp]
theorem confEntry_name (conf : List (String × Value)) (e : OptEntry) :
    (confEntry conf e).name = e.name := by
  unfold confEntry
  rcases e with ⟨n, val, b⟩
  cases h : lookup conf n with
  | none => rfl
  | some cv => cases val <;> cases cv <;> simp <;> split <;> rfl

theorem mergeEntry_of_none (cmd : List (String × Value)) (e : OptEntry)
    (h : lookup cmd e.name = none) : mergeEntry cmd e = e := by
  unfold mergeEntry
  rw [h]

theorem mergeEntry_of_vnone (cmd : List (String × Value)) (e : OptEntry)
    (h : lookup cmd e.name = some Value.vnone) : mergeEntry cmd e = e := by
  unfold mergeEntry
  rw [h]
  simp

theorem mergeEntry_of_set (cmd : List (String × Value)) (e : OptEntry)
    (v : Value) (h : lookup cmd e.name = some v) (hv : v ≠ Value.vnone) :
    mergeEntry cmd e = ⟨e.name, v, true⟩ := by
  unfold mergeEntry
  rw [h]
  simp [hv]

theorem confEntry_of_none (conf : List (String × Value)) (e : OptEntry)
    (h : lookup conf e.name = none) : confEntry conf e = e := by
  unfold confEntry
  rw [h]

theorem confEntry_of_not_both_lists (conf : List (String × Value))
    (e : OptEntry) (cv : Value) (h : lookup conf e.name = some cv)
    (hnl : ¬(e.value.isList = true ∧ cv.isList = true)) :
    confEntry conf e = if e.setByCli then e else ⟨e.name, cv, e.setByCli⟩ := by
  unfold confEntry
  rw [h]
  rcases e with ⟨n, val, b⟩
  cases val <;> cases cv <;> simp_all [Value.isList]

theorem confEntry_of_both_lists (conf : List (String × Value)) (n : String)
    (l cl : List String) (b : Bool) (h : lookup conf n = some (.vlist cl)) :
    confEntry conf ⟨n, .vlist l, b⟩ = ⟨n, .vlist (l ++ cl), b⟩ := by
  unfold confEntry
  rw [h]

/-- Resolving an option after `load_options`: the seeded default of the first
matching key, pushed through the command-line merge step and then the
configuration-file merge step. -/
theorem resolve_load_options (D : List (String × Value))
    (A : List ParserAction) (occ : String → List String)
    (conf : List (String × Value)) (k : String) :
    SoSOptions.resolve (load_options D A occ conf) k =
      (lookup D k).map (fun d =>
        (confEntry conf (mergeEntry (parse_args (suppress_defaults A) occ)
          ⟨k, d, false⟩)).value) := by
  unfold load_options SoSOptions.init SoSOptions.merge SoSOptions.update_from_conf
  induction D with
  | nil => rfl
  | cons p l ih =>
    rcases p with ⟨k0, d0⟩
    by_cases h : k0 = k
    · subst h
      simp [lookup, SoSOptions.resolve]
    · simp only [List.map_cons, lookup, SoSOptions.resolve, confEntry_name,
        mergeEntry_name, if_neg h]
      exact ih

/-- The common options added by `SoS._add_common_options`
(src lines 216-231). -/
def commonActions : List ParserAction :=
  [⟨"config_file", .store, .vstr "/etc/sos.conf"⟩,
   ⟨"quiet", .store_true, .vbool false⟩,
   ⟨"sysroot", .store, .vnone⟩,
   ⟨"tmp_dir", .store, .vnone⟩,
   ⟨"verbosity", .count, .vint 0⟩]

/-- C1: amended — for every option in the registered default set whose merge
is value-replacing (not the list-extend case), `load_options` resolves with
precedence command line > configuration file > built-in default: an option
the user explicitly supplied resolves to the command-line value, otherwise a
configuration-file value wins over the seeded default, otherwise the default
stands. (List-typed options instead append the configuration-file value to
the command-line sequence; see the counterexample.) -/
theorem sos_C1_option_precedence (D : List (String × Value))
    (A : List ParserAction) (occ : String → List String)
    (conf : List (String × Value)) (k : String) (d : Value)
    (hD : lookup D k = some d) :
    (∀ u, lookup (parse_args (suppress_defaults A) occ) k = some u →
      u ≠ Value.vnone →
      (lookup conf k = none →
        SoSOptions.resolve (load_options D A occ conf) k = some u) ∧
      (∀ c, lookup conf k = some c → ¬(u.isList = true ∧ c.isList = true) →
        SoSOptions.resolve (load_options D A occ conf) k = some u)) ∧
    ((lookup (parse_args (suppress_defaults A) occ) k = none ∨
      lookup (parse_args (suppress_defaults A) occ) k = some Value.vnone) →
      (lookup conf k = none →
        SoSOptions.resolve (load_options D A occ conf) k = some d) ∧
      (∀ c, lookup conf k = some c → ¬(d.isList = true ∧ c.isList = true) →
        SoSOptions.resolve (load_options D A occ conf) k = some c)) := by
  constructor
  · intro u hu hvn
    have hm : mergeEntry (parse_args (suppress_defaults A) occ) ⟨k, d, false⟩ =
        ⟨k, u, true⟩ := mergeEntry_of_set _ _ u hu hvn
    constructor
    · intro hc
      rw [resolve_load_options, hD, Option.map_some', hm,
        confEntry_of_none _ _ hc]
    · intro c hc hnl
      rw [resolve_load_options, hD, Option.map_some', hm,
        confEntry_of_not_both_lists _ _ c hc hnl]
      rfl
  · intro hcli
    have hm : mergeEntry (parse_args (suppress_defaults A) occ) ⟨k, d, false⟩ =
        ⟨k, d, false⟩ := by
      cases hcli with
      | inl h => exact mergeEntry_of_none _ _ h
      | inr h => exact mergeEntry_of_vnone _ _ h
    constructor
    · intro hc
      rw [resolve_load_options, hD, Option.map_some', hm,
        confEntry_of_none _ _ hc]
    · intro c hc hnl
      rw [resolve_load_options, hD, Option.map_some', hm,
        confEntry_of_not_both_lists _ _ c hc hnl]
      rfl

/-- Witness for C1: with the shared defaults and common actions, `-s /host`
on the command line wins for `sysroot` even with a configuration file
present. -/
theorem sos_C1_option_precedence_witness :
    SoSOptions.resolve (load_options sharedArgDefaults commonActions
      (fun s => if s = "sysroot" then ["/host"] else [])
      [("tmp_dir", Value.vstr "/var/tmp")]) "sysroot"
      = some (Value.vstr "/host") :=
  ((sos_C1_option_precedence sharedArgDefaults commonActions
      (fun s => if s = "sysroot" then ["/host"] else [])
      [("tmp_dir", Value.vstr "/var/tmp")] "sysroot" Value.vnone
      (by decide)).1
    (Value.vstr "/host") (by decide) (by decide)).1 (by decide)

/-- Counterexample to C1 as stated: for a list-typed option supplied on the
command line (`a`, `b`) and also present in the configuration file (`c`), the
resolved value is the appended sequence `[a, b, c]`, not the command-line
value `[a, b]`. -/
theorem sos_C1_list_option_counterexample :
    lookup (parse_args (suppress_defaults
        [⟨"only_plugins", ActionKind.extend, Value.vnone⟩])
        (fun s => if s = "only_plugins" then ["a", "b"] else []))
        "only_plugins" = some (Value.vlist ["a", "b"]) ∧
    SoSOptions.resolve (load_options [("only_plugins", Value.vlist [])]
        [⟨"only_plugins", ActionKind.extend, Value.vnone⟩]
        (fun s => if s = "only_plugins" then ["a", "b"] else [])
        [("only_plugins", Value.vlist ["c"])]) "only_plugins"
      = some (Value.vlist ["a", "b", "c"]) ∧
    Value.vlist ["a", "b", "c"] ≠ Value.vlist ["a", "b"] := by
  refine ⟨by decide, by decide, by decide⟩

/-- C2: before the command-line merge, `load_options` replaces the
parser-level default of every action whose default is not the suppression
sentinel by `None`; an option the user did not type then parses to `None`,
and a `None` command-line value is not merged, so it cannot shadow a later
configuration-file value. -/
theorem sos_C2_parser_default_suppression (A : List ParserAction)
    (a : ParserAction) (ha : a ∈ A) (hs : a.default ≠ suppressSentinel) :
    ({ a with default := Value.vnone } ∈ suppress_defaults A) ∧
    (∀ occ : String → List String, occ a.dest = [] →
      parse_action { a with default := Value.vnone } (occ a.dest) =
        Value.vnone) ∧
    (∀ (entries : List OptEntry) (cmd : List (String × Value)) (k : String),
      lookup cmd k = some Value.vnone →
      SoSOptions.resolve (SoSOptions.merge entries cmd) k =
        SoSOptions.resolve entries k) := by
  refine ⟨?_, ?_, ?_⟩
  · have hmem := List.mem_map_of_mem
      (fun a : ParserAction =>
        if a.default = suppressSentinel then a
        else { a with default := Value.vnone }) ha
    simpa [suppress_defaults, if_neg hs] using hmem
  · intro occ hocc
    rw [hocc]
    rfl
  · intro entries cmd k hcmd
    induction entries with
    | nil => rfl
    | cons e rest ih =>
      unfold SoSOptions.merge at ih ⊢
      by_cases hk : e.name = k
      · have hme : mergeEntry cmd e = e :=
          mergeEntry_of_vnone cmd e (by rw [hk]; exact hcmd)
        simp [SoSOptions.resolve, List.map_cons, hme, hk]
      · simp only [List.map_cons, SoSOptions.resolve, mergeEntry_name,
          if_neg hk]
        exact ih

/-- Witness for C2: the `sysroot` action of the common options, typed by
nobody, is suppressed to `None` and parses to `None`. -/
theorem sos_C2_parser_default_suppression_witness :
    (({ dest := "sysroot", kind := ActionKind.store, default := Value.vnone } :
        ParserAction) ∈ suppress_defaults commonActions) ∧
    parse_action
      { dest := "sysroot", kind := ActionKind.store, default := Value.vnone }
      ((fun _ : String => ([] : List String)) "sysroot") = Value.vnone := by
  have h := sos_C2_parser_default_suppression commonActions
    ⟨"sysroot", ActionKind.store, Value.vnone⟩ (by decide) (by decide)
  exact ⟨h.1, h.2.1 (fun _ => []) rfl⟩

/-- C6: a list-typed (`extend`) option accumulates its command-line
occurrences in the order given, and a configuration-file value for the same
key appends to the command-line-derived sequence: occurrences `xs` plus
configuration value `cs` resolve to `xs ++ cs`. -/
theorem sos_C6_list_option_extend (k : String) (xs cs : List String)
    (d adef : Value) (hxs : xs ≠ []) :
    lookup (parse_args (suppress_defaults [⟨k, ActionKind.extend, adef⟩])
        (fun s => if s = k then xs else [])) k = some (Value.vlist xs) ∧
    SoSOptions.resolve (load_options [(k, d)]
        [⟨k, ActionKind.extend, adef⟩]
        (fun s => if s = k then xs else []) [(k, Value.vlist cs)]) k
      = some (Value.vlist (xs ++ cs)) := by
  obtain ⟨x, xt, rfl⟩ : ∃ x xt, xs = x :: xt := by
    cases xs with
    | nil => exact absurd rfl hxs
    | cons x xt => exact ⟨x, xt, rfl⟩
  have hcli : lookup (parse_args (suppress_defaults
      [⟨k, ActionKind.extend, adef⟩]) (fun s => if s = k then x :: xt else []))
      k = some (Value.vlist (x :: xt)) := by
    by_cases hs : adef = suppressSentinel <;>
      simp [suppress_defaults, parse_args, lookup, parse_action, hs]
  refine ⟨hcli, ?_⟩
  rw [resolve_load_options]
  have hD : lookup [(k, d)] k = some d := by simp [lookup]
  rw [hD, Option.map_some',
    mergeEntry_of_set _ _ _ hcli (by simp),
    confEntry_of_both_lists _ k (x :: xt) cs true (by simp [lookup])]

/-- Witness for C6: `--only-plugins a --only-plugins b` with configuration
value `c` resolves to `[a, b, c]`. -/
theorem sos_C6_list_option_extend_witness :
    SoSOptions.resolve (load_options [("only_plugins", Value.vlist [])]
        [⟨"only_plugins", ActionKind.extend, Value.vnone⟩]
        (fun s => if s = "only_plugins" then ["a", "b"] else [])
        [("only_plugins", Value.vlist ["c"])]) "only_plugins"
      = some (Value.vlist (["a", "b"] ++ ["c"])) :=
  (sos_C6_list_option_extend "only_plugins" ["a", "b"] ["c"]
    (Value.vlist []) Value.vnone (by decide)).2

/-!
Shared defaults: `SoSComponent.__init__` line 74 runs
`self._arg_defaults.update(self.arg_defaults)` on the class-level dict.
-/

/-- C7: a default declared in a component's own `arg_defaults` overrides the
same-named entry of the shared `_arg_defaults` in the merged default set. -/
theorem sos_C7_component_defaults_override
    (arg_defaults : List (String × Value)) (k : String) (v : Value)
    (h : lookup arg_defaults k = some v) :
    lookup (dictUpdate sharedArgDefaults arg_defaults) k = some v :=
  lookup_dictUpdate_of_mem sharedArgDefaults arg_defaults k v h

/-- Witness for C7: a component redeclaring `verbosity` wins over the shared
default `0`. -/
theorem sos_C7_component_defaults_override_witness :
    lookup (dictUpdate sharedArgDefaults [("verbosity", Value.vint 1)])
      "verbosity" = some (Value.vint 1) :=
  sos_C7_component_defaults_override [("verbosity", Value.vint 1)]
    "verbosity" (Value.vint 1) (by decide)

/-- The process-wide state observed through the class attribute
`SoSComponent._arg_defaults`. -/
structure SoSProcessState where
  shared_defaults : List (String × Value)
deriving DecidableEq, Repr

/-- The effect of one `SoSComponent.__init__` on the class-level dict:
`self._arg_defaults.update(self.arg_defaults)` writes through to the shared
class attribute, in place. -/
def component_init_defaults (st : SoSProcessState)
    (arg_defaults : List (String × Value)) : SoSProcessState :=
  ⟨dictUpdate st.shared_defaults arg_defaults⟩

/-- C8: after one component with its own `arg_defaults` is constructed, those
defaults remain in the shared default set seen by every later construction
(unless the later component overrides the same key), and the shared set is
not restored to its original contents. -/
theorem sos_C8_shared_defaults_mutation :
    (∀ (st : SoSProcessState) (d1 d2 : List (String × Value)) (k : String)
      (v : Value), lookup d1 k = some v → lookup d2 k = none →
      lookup ((component_init_defaults
        (component_init_defaults st d1) d2).shared_defaults) k = some v) ∧
    (component_init_defaults ⟨sharedArgDefaults⟩
      [("batch", Value.vbool false)]).shared_defaults ≠ sharedArgDefaults := by
  constructor
  · intro st d1 d2 k v h1 h2
    unfold component_init_defaults
    rw [lookup_dictUpdate_of_none _ d2 k h2]
    exact lookup_dictUpdate_of_mem _ d1 k v h1
  · decide

/-- Witness for C8: a `batch` default added by a first component is still
seen after a second component (which does not declare `batch`) is
constructed. -/
theorem sos_C8_shared_defaults_mutation_witness :
    lookup ((component_init_defaults (component_init_defaults
      ⟨sharedArgDefaults⟩ [("batch", Value.vbool false)])
      [("verbosity", Value.vint 2)]).shared_defaults) "batch"
      = some (Value.vbool false) :=
  sos_C8_shared_defaults_mutation.1 ⟨sharedArgDefaults⟩
    [("batch", Value.vbool false)] [("verbosity", Value.vint 2)]
    "batch" (Value.vbool false) (by decide) (by decide)

/-!
Signal handling: `SoSComponent.get_exit_handler` / `_exit`
(src lines 82-89).
-/

/-- The component state touched by the signal handler. -/
structure ComponentState where
  exit_process : Bool
deriving DecidableEq, Repr

/-- A raised `SystemExit(code)`. -/
inductive ExitOutcome where
  | systemExit (code : Nat)
deriving DecidableEq, Repr

/-- `SoSComponent._exit` (src lines 88-89): `raise SystemExit(error)`; the
`error` argument defaults to 0. -/
def component_exit (error : Nat) : ExitOutcome := .systemExit error

/-- The closure returned by `SoSComponent.get_exit_handler` (src lines
82-86): set `self.exit_process = True`, then `self._exit()` with the default
error of 0. -/
def exit_handler (st : ComponentState) : ComponentState × ExitOutcome :=
  ({ st with exit_process := true }, component_exit 0)

/-- Counterexample to C3 as stated: the SIGTERM handler raises
`SystemExit(0)`; there is no non-zero exit status in the signal-termination
path. -/
theorem sos_C3_signal_exit_counterexample :
    (exit_handler ⟨false⟩).1.exit_process = true ∧
    (exit_handler ⟨false⟩).2 = ExitOutcome.systemExit 0 ∧
    ¬∃ c : Nat, c ≠ 0 ∧ (exit_handler ⟨false⟩).2 = ExitOutcome.systemExit c := by
  refine ⟨rfl, rfl, ?_⟩
  rintro ⟨c, hc, he⟩
  injection he with h
  exact hc h.symm

/-- C3 amended: the installed SIGTERM handler sets `exit_process = True` and
triggers teardown by raising `SystemExit`, but with status 0 (the `_exit`
default) — distinct from the construction-failure status 1, yet not a
reserved non-zero code. -/
theorem sos_C3_signal_exit (st : ComponentState) :
    (exit_handler st).1.exit_process = true ∧
    (exit_handler st).2 = component_exit 0 ∧
    component_exit 0 ≠ ExitOutcome.systemExit 1 := by
  exact ⟨rfl, rfl, by decide⟩

/-!
Component dispatch: `SoS._init_component` (src lines 233-245).
-/

/-- Outcome of running a component constructor: it returns, or raises a
Python `Exception` carrying a message (`BaseException`-only escapees such as
`SystemExit` are outside `except Exception` and out of scope here). -/
inductive CtorResult where
  | ok
  | exn (msg : String)
deriving DecidableEq, Repr

/-- Registry lookup: `_com in self._components.keys()` /
`self._components[_com]`. -/
def lookupCtor : List (String × CtorResult) → String → Option CtorResult
  | [], _ => none
  | p :: l, k => if p.1 = k then some p.2 else lookupCtor l k

/-- What `SoS._init_component` did: the lines it printed, the `sys.exit`
status if any, and whether `self._component` was set. -/
structure InitOutcome where
  printed : List String
  exitCode : Option Nat
  componentSet : Bool
deriving DecidableEq, Repr

/-- `SoS._init_component` (src lines 233-245): an unregistered name prints
the "Unknown subcommand" line but does not exit there; the subsequent
`self._components[_com]` raises `KeyError` (str of a `KeyError` is the
quoted key), which `except Exception` catches, printing the "Could not
initialize" line and exiting 1. A constructor `Exception` likewise prints
the "Could not initialize" line and exits 1. -/
def init_component (registry : List (String × CtorResult)) (com : String) :
    InitOutcome :=
  let pre : List String :=
    if (lookupCtor registry com).isNone then
      ["Unknown subcommand '" ++ com ++ "' specified"]
    else []
  match lookupCtor registry com with
  | none =>
    { printed := pre ++
        ["Could not initialize '" ++ com ++ "': '" ++ com ++ "'"],
      exitCode := some 1, componentSet := false }
  | some .ok => { printed := pre, exitCode := none, componentSet := true }
  | some (.exn m) =>
    { printed := pre ++ ["Could not initialize '" ++ com ++ "': " ++ m],
      exitCode := some 1, componentSet := false }

/-- Counterexample to C4 as stated: an unknown subcommand does exit with
status 1, but two one-line messages are printed, not one. -/
theorem sos_C4_unknown_two_lines_counterexample :
    (init_component [("report", CtorResult.ok)] "bogus").exitCode = some 1 ∧
    (init_component [("report", CtorResult.ok)] "bogus").printed.length ≠ 1 := by
  exact ⟨by decide, by decide⟩

/-- C4 amended: an unregistered subcommand name exits with status 1 after
printing the "Unknown subcommand" line and the "Could not initialize" line
(two one-line messages); any `Exception` during component construction exits
with status 1 after printing the single "Could not initialize" line. No raw
trace is surfaced in either case. -/
theorem sos_C4_dispatch_failure (registry : List (String × CtorResult))
    (com : String) :
    (lookupCtor registry com = none →
      (init_component registry com).exitCode = some 1 ∧
      (init_component registry com).printed =
        ["Unknown subcommand '" ++ com ++ "' specified",
         "Could not initialize '" ++ com ++ "': '" ++ com ++ "'"]) ∧
    (∀ m, lookupCtor registry com = some (CtorResult.exn m) →
      (init_component registry com).exitCode = some 1 ∧
      (init_component registry com).printed =
        ["Could not initialize '" ++ com ++ "': " ++ m]) ∧
    (lookupCtor registry com = some CtorResult.ok →
      (init_component registry com).exitCode = none ∧
      (init_component registry com).printed = []) := by
  refine ⟨?_, ?_, ?_⟩
  · intro h
    simp [init_component, h]
  · intro m h
    simp [init_component, h]
  · intro h
    simp [init_component, h]

/-- Witness for C4: a registry whose constructor raises prints one line and
exits 1. -/
theorem sos_C4_dispatch_failure_witness :
    (init_component [("report", CtorResult.exn "boom")] "report").exitCode
      = some 1 ∧
    (init_component [("report", CtorResult.exn "boom")] "report").printed
      = ["Could not initialize 'report': boom"] :=
  (sos_C4_dispatch_failure [("report", CtorResult.exn "boom")] "report").2.1
    "boom" (by decide)

/-!
Logging setup: `SoSComponent._setup_logging` (src lines 118-165).
-/

/-- Python `logging` severity constants used by the source. -/
def DEBUG : Nat := 10

def INFO : Nat := 20

def WARNING : Nat := 30

def ERROR : Nat := 40

/-- A log handler: the stream it writes to and its minimum severity level
(0 is NOTSET, letting everything through to the logger's own filter). -/
inductive Sink where
  | file (level : Nat)
  | stdout (level : Nat)
  | stderr (level : Nat)
deriving DecidableEq, Repr

/-- Whether a handler writes to a workspace file rather than the console. -/
def Sink.isFile : Sink → Bool
  | .file _ => true
  | _ => false

/-- The handlers attached to the internal diagnostic logger `sos`
(src lines 123-149), in attachment order: the file handler starts at INFO;
when `quiet` is unset, a stdout console handler is attached whose level
follows the Python-truthiness tests `verbosity and verbosity > 1` /
`verbosity and verbosity > 0` (both escalating the file handler to DEBUG),
and an ERROR-level stderr handler is attached. With `quiet` set the file
handler is the only one. -/
def soslog_handlers (quiet : Bool) (verbosity : Int) : List Sink :=
  if quiet then [Sink.file INFO]
  else if verbosity ≠ 0 ∧ verbosity > 1 then
    [Sink.file DEBUG, Sink.stdout DEBUG, Sink.stderr ERROR]
  else if verbosity ≠ 0 ∧ verbosity > 0 then
    [Sink.file DEBUG, Sink.stdout INFO, Sink.stderr ERROR]
  else [Sink.file INFO, Sink.stdout WARNING, Sink.stderr ERROR]

/-- The handlers attached to the user-facing logger `sos_ui`
(src lines 151-165): a file handler with no explicit level (NOTSET), and a
stdout console handler at INFO unless `quiet` is set. -/
def ui_log_handlers (quiet : Bool) : List Sink :=
  if quiet then [Sink.file 0]
  else [Sink.file 0, Sink.stdout INFO]

/-- Counterexample to C5 as stated: with quiet unset and verbosity 1, the
file sink is escalated to full detail (DEBUG), not left at informational —
escalation does not wait for verbosity ≥ 2. -/
theorem sos_C5_verbosity_one_counterexample :
    soslog_handlers false 1 =
      [Sink.file DEBUG, Sink.stdout INFO, Sink.stderr ERROR] ∧
    Sink.file DEBUG ≠ Sink.file INFO := by
  exact ⟨by decide, by decide⟩

/-- C5 amended: with quiet unset, verbosity 0 gives a WARNING console sink
and an INFO file sink; verbosity 1 gives an INFO console sink with the file
sink escalated to DEBUG; verbosity ≥ 2 gives DEBUG on both. The file sink
escalates to full detail for every verbosity ≥ 1, not only ≥ 2. -/
theorem sos_C5_verbosity_levels (v : Int) :
    (soslog_handlers false 0 =
      [Sink.file INFO, Sink.stdout WARNING, Sink.stderr ERROR]) ∧
    (soslog_handlers false 1 =
      [Sink.file DEBUG, Sink.stdout INFO, Sink.stderr ERROR]) ∧
    (2 ≤ v → soslog_handlers false v =
      [Sink.file DEBUG, Sink.stdout DEBUG, Sink.stderr ERROR]) := by
  refine ⟨by decide, by decide, ?_⟩
  intro h
  have h1 : v ≠ 0 := by omega
  have h2 : v > 1 := by omega
  simp [soslog_handlers, h1, h2]

/-- Witness for C5: at verbosity 2 both sinks get full detail. -/
theorem sos_C5_verbosity_levels_witness :
    soslog_handlers false 2 =
      [Sink.file DEBUG, Sink.stdout DEBUG, Sink.stderr ERROR] :=
  (sos_C5_verbosity_levels 2).2.2 (by norm_num)

/-- C10: with quiet set, both loggers carry only their workspace file
handler — no stdout console and no error-only stderr stream — at every
verbosity. -/
theorem sos_C10_quiet_no_console (v : Int) :
    soslog_handlers true v = [Sink.file INFO] ∧
    ui_log_handlers true = [Sink.file 0] ∧
    (∀ s, s ∈ soslog_handlers true v → s.isFile = true) ∧
    (∀ s, s ∈ ui_log_handlers true → s.isFile = true) := by
  have h1 : soslog_handlers true v = [Sink.file INFO] := by
    simp [soslog_handlers]
  have h2 : ui_log_handlers true = [Sink.file 0] := by
    simp [ui_log_handlers]
  refine ⟨h1, h2, ?_, ?_⟩
  · intro s hs
    rw [h1] at hs
    simp only [List.mem_singleton] at hs
    rw [hs]
    rfl
  · intro s hs
    rw [h2] at hs
    simp only [List.mem_singleton] at hs
    rw [hs]
    rfl

/-- Witness for C10: the lone handler of the quiet diagnostic channel is a
file sink. -/
theorem sos_C10_quiet_no_console_witness :
    (Sink.file INFO).isFile = true :=
  (sos_C10_quiet_no_console 0).2.2.1 (Sink.file INFO) (by decide)

/-!
Lifecycle ordering: `SoS.__init__` → `SoS._init_component` →
`SoSComponent.__init__` → `SoS.execute` (src lines 61-81, 180-211, 247-248).
-/

/-- The observable events of one invocation. -/
inductive Event where
  | parseArgs
  | installSignalHandler
  | loadOptions
  | createWorkspace
  | setupLogging
  | executeEntry
deriving DecidableEq, Repr

/-- `SoSComponent.__init__` (src lines 61-80) as its ordered event trace:
install the SIGTERM handler, load options, and — when `configure_logging` is
set — create the temp workspace, then attach every sink of both log channels
(`_setup_logging`). -/
def component_init_trace (configure_logging : Bool) : List Event :=
  [Event.installSignalHandler, Event.loadOptions] ++
    (if configure_logging then [Event.createWorkspace, Event.setupLogging]
     else [])

/-- One full invocation: `SoS.__init__` parses arguments and initializes the
component, then `SoS.execute` invokes the component's entrypoint once. -/
def sos_run_trace (configure_logging : Bool) : List Event :=
  Event.parseArgs :: component_init_trace configure_logging ++
    [Event.executeEntry]

/-- C9: with `configure_logging` enabled, the entrypoint occurs exactly once
in the invocation trace, and wherever it occurs, workspace creation and the
logging setup (which attaches every sink of both channels) already happened
strictly before it. -/
theorem sos_C9_logging_before_execute :
    (sos_run_trace true).count Event.executeEntry = 1 ∧
    (sos_run_trace true).indexOf Event.setupLogging <
      (sos_run_trace true).indexOf Event.executeEntry ∧
    (sos_run_trace true).indexOf Event.createWorkspace <
      (sos_run_trace true).indexOf Event.executeEntry ∧
    (∀ n : Nat, (sos_run_trace true)[n]? = some Event.executeEntry →
      Event.setupLogging ∈ (sos_run_trace true).take n ∧
      Event.createWorkspace ∈ (sos_run_trace true).take n) := by
  refine ⟨by decide, by decide, by decide, ?_⟩
  intro n h
  have hlen : n < 6 := by
    by_contra hge
    push_neg at hge
    rw [List.getElem?_eq_none (by simpa [sos_run_trace, component_init_trace]
      using hge)] at h
    exact Option.noConfusion h
  interval_cases n <;> revert h <;> decide

/-- Witness for C9: the entrypoint sits at index 5, after the workspace and
logging events. -/
theorem sos_C9_logging_before_execute_witness :
    Event.setupLogging ∈ (sos_run_trace true).take 5 ∧
    Event.createWorkspace ∈ (sos_run_trace true).take 5 :=
  sos_C9_logging_before_execute.2.2.2 5 (by decide)
